import Mathlib

/-!
# Verification of zfsbackup-go CLI validation and backup orchestration

Shallow embedding of the `cmd` package of zfsbackup-go: the global flag
processing of `root.go` (`processFlags`, the rate-limiter setup inside
`setupGlobalVars`) and the receive command validation
(`validateReceiveFlags` from the receive command source file).  External
collaborators (the zfs binary, keyrings, backend constructors, the
interactive passphrase prompt, the filesystem work of `setupGlobalVars`)
are modelled as oracle fields of environment records, so that the control
flow of the embedded functions is exactly the control flow of the Go
source.  Go strings are Lean `String`s; the Go standard-library string
helpers used by the source (`strings.Split` with a one-character
separator, `strings.TrimPrefix`, `strings.ToLower` on ASCII input) are
given executable list-of-characters implementations below.
-/

namespace ZfsBackup

/-- Go `error` values distinguishable by the code under study:
`errInvalidInput` from `root.go`, or any other non-nil error. -/
inductive GoError where
  | invalidInput
  | other (msg : String)
  deriving Repr, DecidableEq

/-- `helpers.SnapshotInfo`: a snapshot name and its creation time.
Go's `time.Time` zero value is modelled as `0`. -/
structure SnapshotInfo where
  Name : String := ""
  CreationTime : Nat := 0
  deriving Repr, DecidableEq

/-- Opaque handle standing for a `*openpgp.Entity` key; an `Option PGPKey`
field models the nilable Go pointer. -/
abbrev PGPKey := Nat

/-- The fields of `helpers.JobInfo` that the `cmd` package reads or writes
while validating the receive command. -/
structure JobInfo where
  VolumeName : String := ""
  BaseSnapshot : SnapshotInfo := {}
  IncrementalSnapshot : SnapshotInfo := {}
  Destinations : List String := []
  LocalVolume : String := ""
  AutoRestore : Bool := false
  FullPath : Bool := false
  LastPath : Bool := false
  Force : Bool := false
  NotMounted : Bool := false
  Origin : String := ""
  MaxFileBuffer : Int := 5
  MaxRetryTime : Nat := 0
  MaxBackoffTime : Nat := 0
  Separator : String := "|"
  EncryptMail : String := ""
  SignMail : String := ""
  EncryptKey : Option PGPKey := none
  SignKey : Option PGPKey := none
  StartTime : Nat := 0
  deriving Repr, DecidableEq

/-! ## Go string helpers

`strings.Split`, `strings.TrimPrefix` and `strings.ToLower` as used by the
source.  They are implemented over `List Char` so that every theorem below
can be evaluated on concrete inputs by the kernel. -/

/-- The character lists obtained by splitting at every occurrence of `c`;
splitting the empty list yields one empty part, matching Go's
`strings.Split("", sep) = [""]`. -/
def splitCharList (c : Char) : List Char → List (List Char)
  | [] => [[]]
  | x :: xs =>
    let r := splitCharList c xs
    if x == c then [] :: r
    else
      match r with
      | [] => [[x]]
      | y :: ys => (x :: y) :: ys

/-- Go `strings.Split(s, sep)` for a one-character separator `c` (the source
only splits on `"@"` and `","`). -/
def goSplit (s : String) (c : Char) : List String :=
  (splitCharList c s.toList).map fun l => String.mk l

/-- Whether `p` is a leading segment of `s` (Go `strings.HasPrefix`). -/
def leadsList : List Char → List Char → Bool
  | [], _ => true
  | _ :: _, [] => false
  | p :: ps, s :: ss => p == s && leadsList ps ss

/-- Go `strings.TrimPrefix(s, p)`: `s` without the leading `p`, or `s`
unchanged when `p` does not lead it. -/
def trimLeading (s p : String) : String :=
  if leadsList p.toList s.toList then String.mk (s.toList.drop p.toList.length) else s

/-- Go `strings.ToLower` restricted to ASCII case mapping; it agrees with Go
on every ASCII string, and in particular on all valid log level names. -/
def lowerAscii (s : String) : String := String.mk (s.toList.map Char.toLower)

/-! ## root.go: global flags -/

/-- The `go-logging` levels selectable through the `logLevel` flag. -/
inductive LogLevel where
  | critical
  | error
  | warning
  | notice
  | info
  | debug
  deriving Repr, DecidableEq

/-- The root-command persistent flag values read by `processFlags`. -/
structure RootFlags where
  numCores : Int := 2
  logLevel : String := "notice"
  secretKeyRingPath : String := ""
  publicKeyRingPath : String := ""
  deriving Repr, DecidableEq

/-- Oracles for the external work done by `processFlags`:
`runtime.NumCPU()`, keyring loading (`true` models a nil error), and
`setupGlobalVars` (whose filesystem work is outside the model; its
rate-limiter arithmetic is embedded separately below). -/
structure RootEnv where
  NumCPU : Int := 1
  LoadPrivateRing : String → Bool := fun _ => true
  LoadPublicRing : String → Bool := fun _ => true
  setupGlobalVars : Except GoError Unit := .ok ()

/-- The `switch strings.ToLower(logLevel)` of `processFlags`: the accepted
spellings and the level each selects. -/
def parseLogLevel (s : String) : Option LogLevel :=
  match lowerAscii s with
  | "critical" => some .critical
  | "error" => some .error
  | "warning" => some .warning
  | "warn" => some .warning
  | "notice" => some .notice
  | "info" => some .info
  | "debug" => some .debug
  | _ => none

/-- `processFlags` from `root.go`: log-level selection, the `numCores`
checks (reject non-positive values, clamp values above the detected core
count), keyring loading, then `setupGlobalVars`.  On success it yields the
selected log level and the effective core count passed to
`runtime.GOMAXPROCS`. -/
def processFlags (env : RootEnv) (f : RootFlags) : Except GoError (LogLevel × Int) :=
  match parseLogLevel f.logLevel with
  | none => .error .invalidInput
  | some lvl =>
    if f.numCores ≤ 0 then .error .invalidInput
    else
      let cores := if f.numCores > env.NumCPU then env.NumCPU else f.numCores
      if f.secretKeyRingPath != "" && !env.LoadPrivateRing f.secretKeyRingPath then
        .error .invalidInput
      else if f.publicKeyRingPath != "" && !env.LoadPublicRing f.publicKeyRingPath then
        .error .invalidInput
      else
        match env.setupGlobalVars with
        | .error e => .error e
        | .ok _ => .ok (lvl, cores)

/-- `humanize.KByte` from the go-humanize dependency: the SI kilobyte,
`Byte * 1000`. -/
def humanizeKByte : Nat := 1000

/-- A `ratelimit.Bucket` as far as its construction parameters go: fill rate
(bytes per second) and capacity (bytes).  The Go call converts the same
product to `float64` and `int64`; both conversions are exact here. -/
structure Bucket where
  rate : Nat
  capacity : Nat
  deriving Repr, DecidableEq

/-- The rate-limiter setup at the end of `setupGlobalVars`: for a non-zero
`maxUploadSpeed` the upload bucket is created with rate and capacity
`maxUploadSpeed * humanize.KByte`; a zero `maxUploadSpeed` creates no
bucket. -/
def uploadBucket (maxUploadSpeed : Nat) : Option Bucket :=
  if maxUploadSpeed != 0 then
    some { rate := maxUploadSpeed * humanizeKByte, capacity := maxUploadSpeed * humanizeKByte }
  else none

/-! ## The receive command: validateReceiveFlags -/

/-- Result of `backends.GetBackendForURI(destination)` as far as
`validateReceiveFlags` distinguishes it: success, the sentinel error for an
unrecognized scheme (`backends.ErrInvalidPrefix`), the sentinel error for a
malformed location (`backends.ErrInvalidURI`), or any other error (which
the validation loop ignores). -/
inductive BackendResult where
  | success
  | invalidScheme
  | invalidURI
  | otherError
  deriving Repr, DecidableEq

/-- Oracles for the external collaborators consulted by
`validateReceiveFlags`, plus the root-command keyring path globals.
`GetCreationDate` returns `none` when the zfs query errors;
`decryptEncryptKey` and `decryptSignKey` are the `root.go` helpers whose
outcome depends on the key material and the interactive passphrase. -/
structure RecvEnv where
  now : Nat := 0
  secretKeyRingPath : String := ""
  publicKeyRingPath : String := ""
  GetCreationDate : String → Option Nat := fun _ => none
  GetBackendForURI : String → BackendResult := fun _ => .success
  GetPrivateKeyByEmail : String → Option PGPKey := fun _ => none
  GetPublicKeyByEmail : String → Option PGPKey := fun _ => none
  decryptEncryptKey : PGPKey → Except GoError Unit := fun _ => .ok ()
  decryptSignKey : PGPKey → Except GoError Unit := fun _ => .ok ()

/-- The snapshot-creation-time resolution block of `validateReceiveFlags`
(the body of its `if !jobInfo.AutoRestore` branch): resolve the base
snapshot's creation date, and, when an incremental snapshot was requested,
trim the volume name and a leading `@` from its name and resolve its
creation date.  A failed resolution (`none`) leaves the corresponding
creation-time field untouched and is not an error. -/
def resolveSnapshotTimes (env : RecvEnv) (j : JobInfo) : JobInfo :=
  let j :=
    match env.GetCreationDate (j.LocalVolume ++ "@" ++ j.BaseSnapshot.Name) with
    | some t => { j with BaseSnapshot := { j.BaseSnapshot with CreationTime := t } }
    | none => j
  if j.IncrementalSnapshot.Name != "" then
    let n := trimLeading (trimLeading j.IncrementalSnapshot.Name j.VolumeName) "@"
    let j := { j with IncrementalSnapshot := { j.IncrementalSnapshot with Name := n } }
    match env.GetCreationDate (j.LocalVolume ++ "@" ++ n) with
    | some t => { j with IncrementalSnapshot := { j.IncrementalSnapshot with CreationTime := t } }
    | none => j
  else j

/-- The destination loop of `validateReceiveFlags`: construct a backend for
each destination URI in order; `ErrInvalidPrefix` and `ErrInvalidURI` abort
with `errInvalidInput`, any other outcome is ignored. -/
def checkDestinations (get : String → BackendResult) : List String → Except GoError Unit
  | [] => .ok ()
  | d :: ds =>
    match get d with
    | .invalidScheme => .error .invalidInput
    | .invalidURI => .error .invalidInput
    | _ => checkDestinations get ds

/-- The signing/encryption tail of `validateReceiveFlags` (the code after
the destination loop): keyring-path checks, then key resolution.  Note the
Go code returns from inside the `EncryptMail` branch
(`return decryptEncryptKey()`), so the `SignMail` resolution block is
skipped whenever `EncryptMail` is non-empty. -/
def resolveKeys (env : RecvEnv) (j : JobInfo) : Except GoError JobInfo :=
  if j.EncryptMail != "" && env.secretKeyRingPath == "" then .error .invalidInput
  else if j.SignMail != "" && env.publicKeyRingPath == "" then .error .invalidInput
  else if j.EncryptMail != "" then
    match env.GetPrivateKeyByEmail j.EncryptMail with
    | none => .error .invalidInput
    | some k =>
      match env.decryptEncryptKey k with
      | .error e => .error e
      | .ok _ => .ok { j with EncryptKey := some k }
  else if j.SignMail != "" then
    match env.GetPublicKeyByEmail j.SignMail with
    | none => .error .invalidInput
    | some k =>
      match env.decryptSignKey k with
      | .error e => .error e
      | .ok _ => .ok { j with SignKey := some k }
  else .ok j

/-- `validateReceiveFlags` from the receive command source: argument-count
check, `volume@snapshot` split of the first argument, `-d`/`-e` mutual
exclusion, auto-restore versus incremental exclusion, `origin=` trimming,
snapshot-creation-time resolution (skipped under `--auto`), destination URI
validation, and key resolution.  `args` are the three positional arguments;
`j` is the `jobInfo` global as populated by the flag bindings. -/
def validateReceiveFlags (env : RecvEnv) (j : JobInfo) (args : List String) :
    Except GoError JobInfo :=
  if args.length != 3 then .error .invalidInput
  else
    let j := { j with StartTime := env.now }
    let parts := goSplit (args.getD 0 "") '@'
    if parts.length != 2 && !j.AutoRestore then .error .invalidInput
    else
      let j := if parts.length == 2 then
        { j with BaseSnapshot := { Name := parts.getD 1 "" } } else j
      if j.FullPath && j.LastPath then .error .invalidInput
      else
        let j := { j with VolumeName := parts.getD 0 ""
                          Destinations := goSplit (args.getD 1 "") ','
                          LocalVolume := args.getD 2 "" }
        if j.AutoRestore && j.IncrementalSnapshot.Name != "" then .error .invalidInput
        else
          let j := { j with Origin := trimLeading j.Origin "origin=" }
          let j := if !j.AutoRestore then resolveSnapshotTimes env j else j
          match checkDestinations env.GetBackendForURI j.Destinations with
          | .error e => .error e
          | .ok _ => resolveKeys env j

/-! ## Upload coordinator ordering (backup package)

Modelled from the spec: the `backup` package that implements the upload
coordinator is not among the provided sources; its ordering contract is
taken from the spec's Upload Coordinator description ("After all Volumes
for a job have been confirmed stored at all destinations, the coordinator
uploads the Manifest itself, also fanned out to all destinations, as the
final, atomic-completion marker") and from the concurrency section ("the
Manifest is never written until every Volume's uploads have completed
successfully at every destination").  Destinations and volumes are
abstract identifiers; an interruption is a cut of the event sequence after
any number of completed events. -/
inductive UploadEvent where
  | storeVolume (dest : Nat) (vol : Nat)
  | writeManifest (dest : Nat)
  deriving Repr, DecidableEq

/-- Modelled from the spec: the volume phase of a backup job fans every
volume out to every destination. -/
def fanOutVolumes (vols : List Nat) (dests : List Nat) : List UploadEvent :=
  match vols with
  | [] => []
  | v :: vs => (dests.map fun d => UploadEvent.storeVolume d v) ++ fanOutVolumes vs dests

/-- Modelled from the spec: the completed event sequence of one backup job —
every volume stored at every destination, and only then the manifest
written to every destination. -/
def backupTrace (vols : List Nat) (dests : List Nat) : List UploadEvent :=
  fanOutVolumes vols dests ++ dests.map UploadEvent.writeManifest

/-- Modelled from the spec: a subsequent List of manifests at destination
`d` shows the job as present exactly when the manifest write for `d` is
among the executed events. -/
def manifestVisible (executed : List UploadEvent) (d : Nat) : Bool :=
  executed.contains (UploadEvent.writeManifest d)

/-! ## Helper lemmas -/

/-- Closed-form description of `resolveSnapshotTimes`: only the two snapshot
fields change; each creation time is the resolved value when the zfs query
succeeds and the previous value otherwise. -/
theorem resolveSnapshotTimes_spec (env : RecvEnv) (j : JobInfo) :
    resolveSnapshotTimes env j =
      { j with
        BaseSnapshot :=
          { Name := j.BaseSnapshot.Name,
            CreationTime := (env.GetCreationDate
                (j.LocalVolume ++ "@" ++ j.BaseSnapshot.Name)).getD j.BaseSnapshot.CreationTime },
        IncrementalSnapshot :=
          if j.IncrementalSnapshot.Name != "" then
            { Name := trimLeading (trimLeading j.IncrementalSnapshot.Name j.VolumeName) "@",
              CreationTime := (env.GetCreationDate (j.LocalVolume ++ "@" ++
                  trimLeading (trimLeading j.IncrementalSnapshot.Name j.VolumeName) "@")).getD
                j.IncrementalSnapshot.CreationTime }
          else j.IncrementalSnapshot } := by
  unfold resolveSnapshotTimes
  dsimp only
  cases env.GetCreationDate (j.LocalVolume ++ "@" ++ j.BaseSnapshot.Name) <;>
    cases hn : j.IncrementalSnapshot.Name != "" <;>
    simp only [hn, if_true, if_false, Bool.false_eq_true, ite_false, ite_true] <;>
    first
      | rfl
      | (cases env.GetCreationDate (j.LocalVolume ++ "@" ++
            trimLeading (trimLeading j.IncrementalSnapshot.Name j.VolumeName) "@") <;> rfl)

/-- A destination constructed with `ErrInvalidPrefix` or `ErrInvalidURI`
anywhere in the list makes the destination loop fail with
`errInvalidInput`. -/
theorem checkDestinations_error_of_mem (get : String → BackendResult) (l : List String)
    (d : String) (hd : d ∈ l)
    (hbad : get d = .invalidScheme ∨ get d = .invalidURI) :
    checkDestinations get l = .error .invalidInput := by
  induction l with
  | nil => cases hd
  | cons x xs ih =>
    unfold checkDestinations
    rcases List.mem_cons.mp hd with h | h
    · subst h
      rcases hbad with hb | hb <;> rw [hb]
    · cases hx : get x
      · exact ih h
      · rfl
      · rfl
      · exact ih h

/-- When no destination yields one of the two sentinel construction errors,
the destination loop succeeds. -/
theorem checkDestinations_ok (get : String → BackendResult) (l : List String)
    (hgood : ∀ d ∈ l, get d ≠ .invalidScheme ∧ get d ≠ .invalidURI) :
    checkDestinations get l = .ok () := by
  induction l with
  | nil => rfl
  | cons x xs ih =>
    unfold checkDestinations
    have hx := hgood x (List.mem_cons_self x xs)
    cases h : get x
    · exact ih fun d hd => hgood d (List.mem_cons_of_mem x hd)
    · exact absurd h hx.1
    · exact absurd h hx.2
    · exact ih fun d hd => hgood d (List.mem_cons_of_mem x hd)

/-- Inversion of the tail of `validateReceiveFlags`: a successful overall
result means the key-resolution stage itself returned that job. -/
theorem recvTail_ok_inv (env : RecvEnv) (ds : List String) (rj j2 : JobInfo)
    (h : (match checkDestinations env.GetBackendForURI ds with
            | Except.error e => Except.error e
            | Except.ok _ => resolveKeys env rj) = Except.ok j2) :
    resolveKeys env rj = Except.ok j2 := by
  cases hcd : checkDestinations env.GetBackendForURI ds <;> rw [hcd] at h
  · exact absurd h (by simp)
  · exact h

/-- The key-resolution stage never touches the volume name or either
snapshot record. -/
theorem resolveKeys_ok_frame (env : RecvEnv) (j j2 : JobInfo)
    (h : resolveKeys env j = .ok j2) :
    j2.VolumeName = j.VolumeName ∧ j2.BaseSnapshot = j.BaseSnapshot
      ∧ j2.IncrementalSnapshot = j.IncrementalSnapshot := by
  unfold resolveKeys at h
  cases he : j.EncryptMail != "" <;> cases hs : j.SignMail != "" <;>
    cases hsk : env.secretKeyRingPath == "" <;> cases hpk : env.publicKeyRingPath == "" <;>
    simp only [he, hs, hsk, hpk, Bool.true_and, Bool.false_and, Bool.and_true, Bool.and_false,
      if_true, if_false, Bool.false_eq_true, ite_true, ite_false] at h <;>
    first
      | (cases h <;> exact ⟨rfl, rfl, rfl⟩)
      | (cases hk : env.GetPrivateKeyByEmail j.EncryptMail <;> rw [hk] at h <;>
          (try dsimp only at h) <;>
          first
            | (cases h <;> exact ⟨rfl, rfl, rfl⟩)
            | (rename_i k
               cases hdk : env.decryptEncryptKey k <;> rw [hdk] at h <;>
                 (try dsimp only at h) <;> cases h <;> exact ⟨rfl, rfl, rfl⟩))
      | (cases hk : env.GetPublicKeyByEmail j.SignMail <;> rw [hk] at h <;>
          (try dsimp only at h) <;>
          first
            | (cases h <;> exact ⟨rfl, rfl, rfl⟩)
            | (rename_i k
               cases hdk : env.decryptSignKey k <;> rw [hdk] at h <;>
                 (try dsimp only at h) <;> cases h <;> exact ⟨rfl, rfl, rfl⟩))

/-! ## MaxFileBuffer independence of receive validation -/

theorem resolveSnapshotTimes_mfb (env : RecvEnv) (j : JobInfo) (b : Int) :
    resolveSnapshotTimes env { j with MaxFileBuffer := b }
      = { resolveSnapshotTimes env j with MaxFileBuffer := b } := by
  unfold resolveSnapshotTimes
  dsimp only
  cases env.GetCreationDate (j.LocalVolume ++ "@" ++ j.BaseSnapshot.Name) <;>
    cases hn : j.IncrementalSnapshot.Name != "" <;>
    simp only [hn, if_true, if_false, Bool.false_eq_true, ite_false, ite_true] <;>
    first
      | rfl
      | (cases env.GetCreationDate (j.LocalVolume ++ "@" ++
            trimLeading (trimLeading j.IncrementalSnapshot.Name j.VolumeName) "@") <;> rfl)

theorem resolveKeys_mfb (env : RecvEnv) (j : JobInfo) (b : Int) :
    resolveKeys env { j with MaxFileBuffer := b }
      = (resolveKeys env j).map (fun r => { r with MaxFileBuffer := b }) := by
  unfold resolveKeys
  dsimp only
  cases he : j.EncryptMail != "" <;>
  cases hs : j.SignMail != "" <;>
  cases hsk : env.secretKeyRingPath == "" <;>
  cases hpk : env.publicKeyRingPath == "" <;>
    simp only [he, hs, hsk, hpk, Bool.true_and, Bool.false_and, Bool.and_true, Bool.and_false,
      if_true, if_false, Bool.false_eq_true, ite_true, ite_false] <;>
    first
      | rfl
      | (cases env.GetPrivateKeyByEmail j.EncryptMail <;> (try dsimp only) <;>
          first
            | rfl
            | (rename_i k; cases env.decryptEncryptKey k <;> rfl))
      | (cases env.GetPublicKeyByEmail j.SignMail <;> (try dsimp only) <;>
          first
            | rfl
            | (rename_i k; cases env.decryptSignKey k <;> rfl))

theorem recvTail_mfb (env : RecvEnv) (rj : JobInfo) (b : Int) :
    (match checkDestinations env.GetBackendForURI rj.Destinations with
      | .error e => .error e
      | .ok _ => resolveKeys env { rj with MaxFileBuffer := b })
    = Except.map (fun r => { r with MaxFileBuffer := b })
      (match checkDestinations env.GetBackendForURI rj.Destinations with
        | .error e => .error e
        | .ok _ => resolveKeys env rj) := by
  cases checkDestinations env.GetBackendForURI rj.Destinations
  · rfl
  · exact resolveKeys_mfb env rj b

theorem resolveTail_mfb (env : RecvEnv) (j0 : JobInfo) (b : Int) :
    (match checkDestinations env.GetBackendForURI
        (resolveSnapshotTimes env { j0 with MaxFileBuffer := b }).Destinations with
      | .error e => .error e
      | .ok _ => resolveKeys env (resolveSnapshotTimes env { j0 with MaxFileBuffer := b }))
    = Except.map (fun r => { r with MaxFileBuffer := b })
      (match checkDestinations env.GetBackendForURI
          (resolveSnapshotTimes env j0).Destinations with
        | .error e => .error e
        | .ok _ => resolveKeys env (resolveSnapshotTimes env j0)) := by
  rw [resolveSnapshotTimes_mfb]
  exact recvTail_mfb env (resolveSnapshotTimes env j0) b



set_option maxHeartbeats 1600000 in
/-- C2 (amended): `validateReceiveFlags` performs no check relating
MaxFileBuffer to the destination count — its outcome is the same for every
MaxFileBuffer value, the field being carried through unchanged.  In
particular a receive invocation with MaxFileBuffer zero and more than one
destination is not rejected (see the counterexample
`zero_buffer_two_destinations_accepted`). -/
theorem receive_validation_ignores_maxFileBuffer (env : RecvEnv) (j : JobInfo) (args : List String) (b : Int) :
    validateReceiveFlags env { j with MaxFileBuffer := b } args
      = (validateReceiveFlags env j args).map (fun r => { r with MaxFileBuffer := b }) := by
  unfold validateReceiveFlags
  dsimp only
  cases h1 : args.length != 3
  case true => simp only [h1, if_true, if_false, Bool.false_eq_true, ite_true, ite_false]; rfl
  simp only [h1, if_true, if_false, Bool.false_eq_true, ite_true, ite_false]
  cases h2 : (goSplit (args.getD 0 "") '@').length != 2 && !j.AutoRestore
  case true => simp only [h2, if_true, if_false, Bool.false_eq_true, ite_true, ite_false]; rfl
  simp only [h2, if_true, if_false, Bool.false_eq_true, ite_true, ite_false]
  cases h3 : (goSplit (args.getD 0 "") '@').length == 2
  · simp only [h3, if_true, if_false, Bool.false_eq_true, ite_true, ite_false]
    cases h4 : j.FullPath && j.LastPath
    case true => simp only [h4, if_true, if_false, Bool.false_eq_true, ite_true, ite_false]; rfl
    simp only [h4, if_true, if_false, Bool.false_eq_true, ite_true, ite_false]
    cases h5 : j.AutoRestore && j.IncrementalSnapshot.Name != ""
    case true => simp only [h5, if_true, if_false, Bool.false_eq_true, ite_true, ite_false]; rfl
    simp only [h5, if_true, if_false, Bool.false_eq_true, ite_true, ite_false]
    cases h6 : j.AutoRestore
    · simp only [h6, Bool.not_false, if_true, if_false, Bool.false_eq_true, ite_true, ite_false,
        eq_self_iff_true]
      exact resolveTail_mfb env
        { j with StartTime := env.now,
                 AutoRestore := false,
                 VolumeName := (goSplit (args.getD 0 "") '@').getD 0 "",
                 Destinations := goSplit (args.getD 1 "") ',',
                 LocalVolume := args.getD 2 "",
                 Origin := trimLeading j.Origin "origin=" } b
    · simp only [h6, Bool.not_true, if_true, if_false, Bool.false_eq_true, ite_true, ite_false]
      exact recvTail_mfb env
        { j with StartTime := env.now,
                 AutoRestore := true,
                 VolumeName := (goSplit (args.getD 0 "") '@').getD 0 "",
                 Destinations := goSplit (args.getD 1 "") ',',
                 LocalVolume := args.getD 2 "",
                 Origin := trimLeading j.Origin "origin=" } b
  · simp only [h3, if_true, if_false, Bool.false_eq_true, ite_true, ite_false]
    cases h4 : j.FullPath && j.LastPath
    case true => simp only [h4, if_true, if_false, Bool.false_eq_true, ite_true, ite_false]; rfl
    simp only [h4, if_true, if_false, Bool.false_eq_true, ite_true, ite_false]
    cases h5 : j.AutoRestore && j.IncrementalSnapshot.Name != ""
    case true => simp only [h5, if_true, if_false, Bool.false_eq_true, ite_true, ite_false]; rfl
    simp only [h5, if_true, if_false, Bool.false_eq_true, ite_true, ite_false]
    cases h6 : j.AutoRestore
    · simp only [h6, Bool.not_false, if_true, if_false, Bool.false_eq_true, ite_true, ite_false,
        eq_self_iff_true]
      exact resolveTail_mfb env
        { j with StartTime := env.now,
                 AutoRestore := false,
                 BaseSnapshot := { Name := (goSplit (args.getD 0 "") '@').getD 1 "" },
                 VolumeName := (goSplit (args.getD 0 "") '@').getD 0 "",
                 Destinations := goSplit (args.getD 1 "") ',',
                 LocalVolume := args.getD 2 "",
                 Origin := trimLeading j.Origin "origin=" } b
    · simp only [h6, Bool.not_true, if_true, if_false, Bool.false_eq_true, ite_true, ite_false]
      exact recvTail_mfb env
        { j with StartTime := env.now,
                 AutoRestore := true,
                 BaseSnapshot := { Name := (goSplit (args.getD 0 "") '@').getD 1 "" },
                 VolumeName := (goSplit (args.getD 0 "") '@').getD 0 "",
                 Destinations := goSplit (args.getD 1 "") ',',
                 LocalVolume := args.getD 2 "",
                 Origin := trimLeading j.Origin "origin=" } b

/-! ## Claim theorems -/

theorem mem_fanOutVolumes {v d : Nat} {vols dests : List Nat}
    (hv : v ∈ vols) (hd : d ∈ dests) :
    UploadEvent.storeVolume d v ∈ fanOutVolumes vols dests := by
  induction vols with
  | nil => cases hv
  | cons x xs ih =>
    rcases List.mem_cons.mp hv with h | h
    · subst h
      exact List.mem_append_left _ (List.mem_map_of_mem _ hd)
    · exact List.mem_append_right _ (ih h)

theorem manifest_not_in_fanOutVolumes {d : Nat} {vols dests : List Nat} :
    UploadEvent.writeManifest d ∉ fanOutVolumes vols dests := by
  induction vols with
  | nil => simp [fanOutVolumes]
  | cons x xs ih =>
    intro h
    rcases List.mem_append.mp h with h | h
    · rcases List.mem_map.mp h with ⟨a, _, ha⟩
      cases ha
    · exact ih h

/-- C1: in the spec-modelled upload-coordinator event sequence, the manifest
write events come strictly after every volume-store event; hence if the job
is interrupted at any cut `k` of the sequence at which some referenced
volume has not yet been stored at some destination, no destination's
manifest write has executed, so a subsequent List of manifests does not
show the job as present at any destination. -/
theorem manifest_never_visible_before_all_volumes (vols dests : List Nat) (k v d : Nat)
    (hv : v ∈ vols) (hd : d ∈ dests)
    (hmiss : UploadEvent.storeVolume d v ∉ (backupTrace vols dests).take k) :
    ∀ d2, manifestVisible ((backupTrace vols dests).take k) d2 = false := by
  intro d2
  rw [manifestVisible, Bool.eq_false_iff]
  intro hcon
  have hman : UploadEvent.writeManifest d2 ∈ (backupTrace vols dests).take k :=
    List.elem_iff.mp hcon
  by_cases hk : k ≤ (fanOutVolumes vols dests).length
  · rw [backupTrace, List.take_append_eq_append_take,
      Nat.sub_eq_zero_of_le hk, List.take_zero, List.append_nil] at hman
    exact manifest_not_in_fanOutVolumes (List.take_subset _ _ hman)
  · push_neg at hk
    apply hmiss
    rw [backupTrace, List.take_append_eq_append_take,
      List.take_of_length_le (Nat.le_of_lt hk)]
    exact List.mem_append_left _ (mem_fanOutVolumes hv hd)

/-- Witness for C1: two volumes, one destination, interrupted after the
first volume-store event; the second volume is missing and the manifest is
not visible. -/
theorem manifest_never_visible_before_all_volumes_witness :
    manifestVisible ((backupTrace [0, 1] [7]).take 1) 7 = false :=
  manifest_never_visible_before_all_volumes [0, 1] [7] 1 1 7
    (by decide) (by decide) (by decide) 7

/-- A receive environment in which every destination URI constructs a
backend successfully and no key material is configured. -/
def envPlain : RecvEnv := {}

/-- A receive job with the zero (direct-streaming) MaxFileBuffer value. -/
def jobZeroBuffer : JobInfo := { MaxFileBuffer := 0 }

/-- C2 counterexample: a receive invocation with MaxFileBuffer zero and two
destinations passes validation; `validateReceiveFlags` has no check
relating MaxFileBuffer to the destination count. -/
theorem zero_buffer_two_destinations_accepted :
    (validateReceiveFlags envPlain jobZeroBuffer
        ["tank/data@snap1", "file://b1,file://b2", "tank/restore"]).toOption.map
      (fun r => (r.MaxFileBuffer, r.Destinations.length)) = some (0, 2) := by decide

/-- A receive environment holding both keyrings, with a private key for
every encryption identity and a public key for every signing identity. -/
def envBothKeys : RecvEnv :=
  { secretKeyRingPath := "secring.gpg", publicKeyRingPath := "pubring.gpg",
    GetPrivateKeyByEmail := fun _ => some 1,
    GetPublicKeyByEmail := fun _ => some 2 }

/-- A receive job configuring both an encryption identity and a signing
identity. -/
def jobBothMails : JobInfo :=
  { EncryptMail := "enc@example.com", SignMail := "sign@example.com" }

/-- C3: with both an encryption and a signing identity configured, both
keyrings present, and both keys available, validation succeeds but leaves
`jobInfo.SignKey` unresolved (nil), because the `EncryptMail` branch of
`validateReceiveFlags` returns before the `SignMail` block runs; only
`EncryptKey` is populated. -/
theorem both_identities_sign_key_unresolved :
    (validateReceiveFlags envBothKeys jobBothMails
        ["tank/data@snap1", "file://b", "tank/restore"]).toOption.map
      (fun r => (r.EncryptKey, r.SignKey)) = some (some 1, none) := by decide

/-- C4 counterexample: for maxUploadSpeed 1 the bucket rate is 1000 bytes
per second, not the binary-prefix 1024 the claim states. -/
theorem upload_bucket_rate_not_1024 :
    (uploadBucket 1).map Bucket.rate = some 1000 ∧ (1000 : Nat) ≠ 1 * 1024 := by decide

/-- C4 amended: for every non-zero maxUploadSpeed `n` the upload bucket is
created with rate and capacity `n * 1000` bytes per second — `n` times the
SI kilobyte `humanize.KByte`, not the binary KiB. -/
theorem upload_bucket_rate_si_kb (n : Nat) (h : n ≠ 0) :
    uploadBucket n = some { rate := n * 1000, capacity := n * 1000 } := by
  unfold uploadBucket humanizeKByte
  simp [bne, h]

/-- Witness for the amended C4 at maxUploadSpeed 2. -/
theorem upload_bucket_rate_si_kb_witness :
    uploadBucket 2 = some { rate := 2 * 1000, capacity := 2 * 1000 } :=
  upload_bucket_rate_si_kb 2 (by decide)

theorem parseLogLevel_eq_none_iff (s : String) :
    parseLogLevel s = none ↔
      lowerAscii s ∉ (["critical", "error", "warning", "warn",
        "notice", "info", "debug"] : List String) := by
  unfold parseLogLevel
  split <;> simp_all

/-- C6: global flag processing fails with `errInvalidInput` when the
lowercased log level is not one of critical, error, warning, warn, notice,
info, debug, and likewise when the configured number of cores is not
positive.  `processFlags` is the root command's PersistentPreRunE, so no
job starts on this error. -/
theorem invalid_loglevel_or_cores_rejected (env : RootEnv) (f : RootFlags) :
    (lowerAscii f.logLevel ∉ (["critical", "error", "warning", "warn",
        "notice", "info", "debug"] : List String) →
      processFlags env f = .error .invalidInput)
    ∧ (f.numCores ≤ 0 → processFlags env f = .error .invalidInput) := by
  constructor
  · intro h
    unfold processFlags
    rw [(parseLogLevel_eq_none_iff f.logLevel).mpr h]
  · intro h
    unfold processFlags
    cases hp : parseLogLevel f.logLevel
    · rfl
    · dsimp only
      rw [if_pos h]

theorem invalid_loglevel_or_cores_rejected_witness :
    processFlags {} { logLevel := "verbose" } = .error .invalidInput
      ∧ processFlags {} { numCores := 0 } = .error .invalidInput :=
  ⟨(invalid_loglevel_or_cores_rejected {} { logLevel := "verbose" }).1 (by decide),
   (invalid_loglevel_or_cores_rejected {} { numCores := 0 }).2 (by decide)⟩

/-- C9: a numCores value strictly greater than the detected core count
does not fail flag processing: with a valid log level, loadable keyrings
and a successful `setupGlobalVars`, `processFlags` succeeds and the
effective core count is clamped to `runtime.NumCPU()`; only non-positive
values are rejected (the rejection half is C6's theorem). -/
theorem numCores_above_detected_clamped (env : RootEnv) (f : RootFlags) (lvl : LogLevel)
    (hl : parseLogLevel f.logLevel = some lvl)
    (hc : f.numCores > env.NumCPU) (hpos : 0 < env.NumCPU)
    (hsec : f.secretKeyRingPath = "" ∨ env.LoadPrivateRing f.secretKeyRingPath = true)
    (hpub : f.publicKeyRingPath = "" ∨ env.LoadPublicRing f.publicKeyRingPath = true)
    (hsetup : env.setupGlobalVars = .ok ()) :
    processFlags env f = .ok (lvl, env.NumCPU) := by
  unfold processFlags
  rw [hl]
  dsimp only
  rw [if_neg (show ¬f.numCores ≤ 0 by omega), if_pos hc]
  have h1 : (f.secretKeyRingPath != "" && !env.LoadPrivateRing f.secretKeyRingPath) = false := by
    rcases hsec with h | h
    · simp [h]
    · simp [h]
  have h2 : (f.publicKeyRingPath != "" && !env.LoadPublicRing f.publicKeyRingPath) = false := by
    rcases hpub with h | h
    · simp [h]
    · simp [h]
  rw [h1, h2]
  simp only [Bool.false_eq_true, if_false, ite_false]
  rw [hsetup]

theorem numCores_above_detected_clamped_witness :
    processFlags { NumCPU := 8 } { numCores := 16 } = .ok (.notice, 8) :=
  numCores_above_detected_clamped { NumCPU := 8 } { numCores := 16 } .notice
    (by decide) (by decide) (by decide) (Or.inl rfl) (Or.inl rfl) rfl

/-- C8: a receive invocation with the auto-restore flag set and a
non-empty incremental snapshot name always fails validation with
`errInvalidInput`, for every environment — in particular the result does
not depend on the backend or zfs oracles, so no backend or restore work is
attempted. -/
theorem auto_restore_with_incremental_rejected (env : RecvEnv) (j : JobInfo)
    (args : List String)
    (ha : j.AutoRestore = true) (hi : j.IncrementalSnapshot.Name ≠ "") :
    validateReceiveFlags env j args = .error .invalidInput := by
  unfold validateReceiveFlags
  dsimp only
  cases h1 : args.length != 3
  case true => simp only [h1, if_true, if_false, Bool.false_eq_true, ite_true, ite_false]
  simp only [h1, ha, Bool.not_true, Bool.and_false, if_true, if_false,
    Bool.false_eq_true, ite_true, ite_false]
  cases h3 : (goSplit (args.getD 0 "") '@').length == 2 <;>
    simp only [h3, if_true, if_false, Bool.false_eq_true, ite_true, ite_false] <;>
    (try dsimp only) <;>
  cases h4 : j.FullPath && j.LastPath <;>
    simp only [h4, ha, bne_iff_ne.mpr hi, Bool.true_and, if_true, if_false,
      Bool.false_eq_true, ite_true, ite_false, eq_self_iff_true]

theorem auto_restore_with_incremental_rejected_witness :
    validateReceiveFlags envPlain
      { AutoRestore := true, IncrementalSnapshot := { Name := "snap0" } }
      ["tank/data@snap1", "file://b", "tank/restore"] = .error .invalidInput :=
  auto_restore_with_incremental_rejected envPlain
    { AutoRestore := true, IncrementalSnapshot := { Name := "snap0" } }
    ["tank/data@snap1", "file://b", "tank/restore"] rfl (by decide)

/-- C5: for every destination URI in the receive invocation's
comma-separated destination list, validation fails with `errInvalidInput`
whenever constructing the backend yields `ErrInvalidPrefix` (unsupported
scheme) or `ErrInvalidURI` (malformed location) — `validateReceiveFlags`
is the command's PreRunE, so this happens before any job work; and when
every destination constructs a backend without these two errors, the
destination loop passes. -/
theorem destination_uri_validation :
    (∀ (env : RecvEnv) (j : JobInfo) (args : List String) (d : String),
        d ∈ goSplit (args.getD 1 "") ',' →
        env.GetBackendForURI d = .invalidScheme ∨ env.GetBackendForURI d = .invalidURI →
        validateReceiveFlags env j args = .error .invalidInput)
    ∧ (∀ (get : String → BackendResult) (dests : List String),
        (∀ d ∈ dests, get d ≠ .invalidScheme ∧ get d ≠ .invalidURI) →
        checkDestinations get dests = .ok ()) := by
  constructor
  · intro env j args d hd hbad
    have hcd := checkDestinations_error_of_mem env.GetBackendForURI
      (goSplit (args.getD 1 "") ',') d hd hbad
    unfold validateReceiveFlags
    dsimp only
    cases h1 : args.length != 3
    case true => simp only [h1, if_true, if_false, Bool.false_eq_true, ite_true, ite_false]
    simp only [h1, if_true, if_false, Bool.false_eq_true, ite_true, ite_false]
    cases h2 : (goSplit (args.getD 0 "") '@').length != 2 && !j.AutoRestore
    case true => simp only [h2, if_true, if_false, Bool.false_eq_true, ite_true, ite_false]
    simp only [h2, if_true, if_false, Bool.false_eq_true, ite_true, ite_false]
    cases h3 : (goSplit (args.getD 0 "") '@').length == 2 <;>
      simp only [h3, if_true, if_false, Bool.false_eq_true, ite_true, ite_false] <;>
      (try dsimp only) <;>
    cases h4 : j.FullPath && j.LastPath <;>
      simp only [h4, if_true, if_false, Bool.false_eq_true, ite_true, ite_false] <;>
      first
        | rfl
        | (cases h5 : j.AutoRestore && j.IncrementalSnapshot.Name != "" <;>
            simp only [h5, if_true, if_false, Bool.false_eq_true, ite_true, ite_false] <;>
            first
              | rfl
              | (cases h6 : j.AutoRestore <;>
                  simp only [h6, Bool.not_true, Bool.not_false, if_true, if_false,
                    Bool.false_eq_true, ite_true, ite_false] <;>
                  (try rw [resolveSnapshotTimes_spec]) <;>
                  (try dsimp only) <;>
                  rw [hcd]))
  · exact checkDestinations_ok



/-- A receive environment where exactly one URI has an unrecognized
scheme. -/
def envBadDest : RecvEnv :=
  { GetBackendForURI := fun d => if d == "xyz://bad" then .invalidScheme else .success }

/-- Witness for C5: a destination list with one unsupported scheme fails
validation; an all-good list passes the destination loop. -/
theorem destination_uri_validation_witness :
    validateReceiveFlags envBadDest {}
        ["tank/data@snap1", "file://ok,xyz://bad", "tank/restore"] = .error .invalidInput
      ∧ checkDestinations (fun _ => .success) ["file://a", "s3://b"] = .ok () :=
  ⟨destination_uri_validation.1 envBadDest {}
      ["tank/data@snap1", "file://ok,xyz://bad", "tank/restore"] "xyz://bad"
      (by decide) (Or.inl (by decide)),
   destination_uri_validation.2 (fun _ => .success) ["file://a", "s3://b"] (by decide)⟩

/-- C10: without auto-restore, the first positional argument must split
on `@` into exactly two parts or validation fails with `errInvalidInput`;
and whenever it does split into two parts and validation succeeds, the
part before `@` is the job's volume name and the part after is the base
snapshot name. -/
theorem base_snapshot_argument_parsing :
    (∀ (env : RecvEnv) (j : JobInfo) (args : List String),
        j.AutoRestore = false →
        (goSplit (args.getD 0 "") '@').length ≠ 2 →
        validateReceiveFlags env j args = .error .invalidInput)
    ∧ (∀ (env : RecvEnv) (j j2 : JobInfo) (args : List String),
        (goSplit (args.getD 0 "") '@').length = 2 →
        validateReceiveFlags env j args = .ok j2 →
        j2.VolumeName = (goSplit (args.getD 0 "") '@').getD 0 ""
          ∧ j2.BaseSnapshot.Name = (goSplit (args.getD 0 "") '@').getD 1 "") := by
  constructor
  · intro env j args hauto hne
    unfold validateReceiveFlags
    dsimp only
    cases h1 : args.length != 3
    case true => simp only [h1, if_true, if_false, Bool.false_eq_true, ite_true, ite_false]
    simp only [h1, hauto, Bool.not_false, Bool.and_true, bne_iff_ne.mpr hne,
      if_true, if_false, Bool.false_eq_true, ite_true, ite_false, eq_self_iff_true]
  · intro env j j2 args hlen hok
    unfold validateReceiveFlags at hok
    dsimp only at hok
    rw [hlen] at hok
    simp only [bne_self_eq_false, beq_self_eq_true, Bool.false_and, if_true, if_false,
      Bool.false_eq_true, ite_true, ite_false, eq_self_iff_true] at hok
    cases h1 : args.length != 3 <;> rw [h1] at hok <;>
      simp only [if_true, if_false, Bool.false_eq_true, ite_true, ite_false,
        eq_self_iff_true] at hok <;> (try cases hok)
    cases h4 : j.FullPath && j.LastPath <;> rw [h4] at hok <;>
      simp only [if_true, if_false, Bool.false_eq_true, ite_true, ite_false,
        eq_self_iff_true] at hok <;> (try cases hok)
    cases h5 : j.AutoRestore && j.IncrementalSnapshot.Name != "" <;> rw [h5] at hok <;>
      simp only [if_true, if_false, Bool.false_eq_true, ite_true, ite_false,
        eq_self_iff_true] at hok <;> (try cases hok)
    cases h6 : j.AutoRestore <;> rw [h6] at hok <;>
      simp only [Bool.not_true, Bool.not_false, if_true, if_false, Bool.false_eq_true,
        ite_true, ite_false, eq_self_iff_true] at hok <;>
      (try rw [resolveSnapshotTimes_spec] at hok) <;>
      (try dsimp only at hok)
    · have hr := recvTail_ok_inv env _ _ j2 hok
      obtain ⟨hv, hb, _⟩ := resolveKeys_ok_frame env _ j2 hr
      exact ⟨by rw [hv], by rw [hb]⟩
    · have hr := recvTail_ok_inv env _ _ j2 hok
      obtain ⟨hv, hb, _⟩ := resolveKeys_ok_frame env _ j2 hr
      exact ⟨by rw [hv], by rw [hb]⟩



/-- Witness for C10: a first argument without `@` is rejected; one of the
form `volume@snapshot` populates the volume and base snapshot names. -/
theorem base_snapshot_argument_parsing_witness :
    validateReceiveFlags envPlain {} ["tankdata", "file://b", "tank/restore"]
        = .error .invalidInput
      ∧ ((validateReceiveFlags envPlain {}
            ["tank/data@snap1", "file://b", "tank/restore"]).toOption.getD {}).VolumeName
          = "tank/data" :=
  ⟨base_snapshot_argument_parsing.1 envPlain {} ["tankdata", "file://b", "tank/restore"]
      rfl (by decide),
   (base_snapshot_argument_parsing.2 envPlain {} _
      ["tank/data@snap1", "file://b", "tank/restore"] (by decide) rfl).1.trans (by decide)⟩

theorem bne_eq_false_of_beq {n m : Nat} (h : (n == m) = true) : (n != m) = false := by
  simp [bne, h]

theorem bne_eq_true_of_beq {n m : Nat} (h : (n == m) = false) : (n != m) = true := by
  simp [bne, h]

theorem resolveKeys_env_getCD (env : RecvEnv) (g : String → Option Nat) (x : JobInfo) :
    resolveKeys { env with GetCreationDate := g } x = resolveKeys env x := by
  unfold resolveKeys
  rfl

theorem rst_Destinations (env : RecvEnv) (x : JobInfo) :
    (resolveSnapshotTimes env x).Destinations = x.Destinations := by
  rw [resolveSnapshotTimes_spec]

theorem rst_EncryptMail (env : RecvEnv) (x : JobInfo) :
    (resolveSnapshotTimes env x).EncryptMail = x.EncryptMail := by
  rw [resolveSnapshotTimes_spec]

theorem rst_SignMail (env : RecvEnv) (x : JobInfo) :
    (resolveSnapshotTimes env x).SignMail = x.SignMail := by
  rw [resolveSnapshotTimes_spec]

theorem resolveKeys_isOk_of_mails (env : RecvEnv) (j1 j2 : JobInfo)
    (hem : j1.EncryptMail = j2.EncryptMail) (hsm : j1.SignMail = j2.SignMail) :
    (resolveKeys env j1).isOk = (resolveKeys env j2).isOk := by
  unfold resolveKeys
  rw [hem, hsm]
  cases he : j2.EncryptMail != "" <;> cases hs : j2.SignMail != "" <;>
    cases hsk : env.secretKeyRingPath == "" <;> cases hpk : env.publicKeyRingPath == "" <;>
    simp only [he, hs, hsk, hpk, Bool.true_and, Bool.false_and, Bool.and_true, Bool.and_false,
      if_true, if_false, Bool.false_eq_true, ite_true, ite_false] <;>
    first
      | rfl
      | (cases env.GetPrivateKeyByEmail j2.EncryptMail <;> (try dsimp only) <;>
          first
            | rfl
            | (rename_i k; cases env.decryptEncryptKey k <;> rfl))
      | (cases env.GetPublicKeyByEmail j2.SignMail <;> (try dsimp only) <;>
          first
            | rfl
            | (rename_i k; cases env.decryptSignKey k <;> rfl))

theorem tail_isOk (env : RecvEnv) (rj1 rj2 : JobInfo)
    (hd : rj1.Destinations = rj2.Destinations)
    (hem : rj1.EncryptMail = rj2.EncryptMail) (hsm : rj1.SignMail = rj2.SignMail) :
    (match checkDestinations env.GetBackendForURI rj1.Destinations with
      | Except.error e => Except.error e
      | Except.ok _ => resolveKeys env rj1).isOk
    = (match checkDestinations env.GetBackendForURI rj2.Destinations with
      | Except.error e => Except.error e
      | Except.ok _ => resolveKeys env rj2).isOk := by
  rw [hd]
  cases checkDestinations env.GetBackendForURI rj2.Destinations
  · rfl
  · exact resolveKeys_isOk_of_mails env rj1 rj2 hem hsm

theorem validate_isOk_getCD (env : RecvEnv) (j : JobInfo) (args : List String)
    (g : String → Option Nat) :
    (validateReceiveFlags { env with GetCreationDate := g } j args).isOk
      = (validateReceiveFlags env j args).isOk := by
  unfold validateReceiveFlags
  dsimp only
  cases h1 : args.length != 3
  case true => simp only [h1, if_true, if_false, Bool.false_eq_true, ite_true, ite_false]
  simp only [h1, if_true, if_false, Bool.false_eq_true, ite_true, ite_false]
  cases h2 : (goSplit (args.getD 0 "") '@').length != 2 && !j.AutoRestore
  case true => simp only [h2, if_true, if_false, Bool.false_eq_true, ite_true, ite_false]
  simp only [h2, if_true, if_false, Bool.false_eq_true, ite_true, ite_false]
  cases h3 : (goSplit (args.getD 0 "") '@').length == 2 <;>
    simp only [h3, if_true, if_false, Bool.false_eq_true, ite_true, ite_false] <;>
    (try dsimp only) <;>
  cases h4 : j.FullPath && j.LastPath <;>
    simp only [h4, if_true, if_false, Bool.false_eq_true, ite_true, ite_false] <;>
    first
      | rfl
      | (cases h5 : j.AutoRestore && j.IncrementalSnapshot.Name != "" <;>
          simp only [h5, if_true, if_false, Bool.false_eq_true, ite_true, ite_false] <;>
          first
            | rfl
            | (cases h6 : j.AutoRestore <;>
                simp only [h6, Bool.not_true, Bool.not_false, if_true, if_false,
                  Bool.false_eq_true, ite_true, ite_false] <;>
                rw [resolveKeys_env_getCD env g] <;>
                first
                  | rfl
                  | (exact tail_isOk env _ _
                      ((rst_Destinations _ _).trans (rst_Destinations _ _).symm)
                      ((rst_EncryptMail _ _).trans (rst_EncryptMail _ _).symm)
                      ((rst_SignMail _ _).trans (rst_SignMail _ _).symm))))



/-- C7: for a non-auto-restore receive invocation that passes validation,
the snapshot fields of the resulting job hold exactly the parsed names and
the resolved creation timestamps: the base snapshot carries the name parsed
from the first argument and the resolved timestamp (zero when resolution
fails), the incremental snapshot is untouched when not requested and
otherwise carries its trimmed name and resolved timestamp (left at its
zero value when resolution fails), and a resolution failure never changes
the validation outcome (last conjunct: the outcome is independent of the
creation-date oracle). -/
theorem validation_snapshot_field_frame
    (env : RecvEnv) (j j2 : JobInfo) (args : List String)
    (hauto : j.AutoRestore = false)
    (hinc0 : j.IncrementalSnapshot.CreationTime = 0)
    (hok : validateReceiveFlags env j args = .ok j2) :
    (j2.BaseSnapshot.Name = (goSplit (args.getD 0 "") '@').getD 1 ""
      ∧ j2.BaseSnapshot.CreationTime
          = (env.GetCreationDate (args.getD 2 "" ++ "@"
              ++ (goSplit (args.getD 0 "") '@').getD 1 "")).getD 0)
    ∧ (j.IncrementalSnapshot.Name = "" → j2.IncrementalSnapshot = j.IncrementalSnapshot)
    ∧ (j.IncrementalSnapshot.Name ≠ "" →
        j2.IncrementalSnapshot.Name
            = trimLeading (trimLeading j.IncrementalSnapshot.Name
                ((goSplit (args.getD 0 "") '@').getD 0 "")) "@"
          ∧ j2.IncrementalSnapshot.CreationTime
              = (env.GetCreationDate (args.getD 2 "" ++ "@"
                  ++ trimLeading (trimLeading j.IncrementalSnapshot.Name
                      ((goSplit (args.getD 0 "") '@').getD 0 "")) "@")).getD 0)
    ∧ (∀ g : String → Option Nat,
        (validateReceiveFlags { env with GetCreationDate := g } j args).isOk
          = (validateReceiveFlags env j args).isOk) := by
  refine ⟨?_, ?_, ?_, fun g => validate_isOk_getCD env j args g⟩
  all_goals (
    unfold validateReceiveFlags at hok
    dsimp only at hok
    rw [hauto] at hok
    cases h1 : args.length != 3 <;> rw [h1] at hok <;>
      simp only [Bool.not_false, Bool.and_true, if_true, if_false,
        Bool.false_eq_true, ite_true, ite_false, eq_self_iff_true] at hok <;>
      (try cases hok)
    cases h3 : (goSplit (args.getD 0 "") '@').length == 2
    case false =>
      rw [bne_eq_true_of_beq h3] at hok
      simp only [if_true, if_false, Bool.false_eq_true, ite_true, ite_false,
        eq_self_iff_true] at hok
      cases hok
    rw [bne_eq_false_of_beq h3, h3] at hok
    simp only [if_true, if_false, Bool.false_eq_true, ite_true, ite_false,
      eq_self_iff_true] at hok
    cases h4 : j.FullPath && j.LastPath <;> rw [h4] at hok <;>
      simp only [Bool.false_and, Bool.not_false, if_true, if_false, Bool.false_eq_true,
        ite_true, ite_false, eq_self_iff_true] at hok <;>
      (try cases hok)
    rw [resolveSnapshotTimes_spec] at hok
    dsimp only at hok
    have hr := recvTail_ok_inv env _ _ j2 hok
    obtain ⟨hv, hb, hi⟩ := resolveKeys_ok_frame env _ j2 hr
    clear hok hr)
  · exact ⟨by rw [hb], by rw [hb]⟩
  · intro hname
    have hb0 : (j.IncrementalSnapshot.Name != "") = false := by simp [hname]
    rw [hi]
    dsimp only
    rw [hb0]
    simp
  · intro hname
    have hb1 : (j.IncrementalSnapshot.Name != "") = true := bne_iff_ne.mpr hname
    rw [hinc0] at hi
    rw [hi]
    dsimp only
    rw [hb1]
    simp



/-- A receive environment whose zfs query resolves a creation time only for
the base snapshot of the witness invocation. -/
def envTimes : RecvEnv :=
  { GetCreationDate := fun s => if s == "tank/restore@snap1" then some 42 else none }

/-- A receive job requesting an incremental restore from `snap0`. -/
def jobWithIncremental : JobInfo := { IncrementalSnapshot := { Name := "snap0" } }

/-- Witness for C7: on a concrete run the base snapshot's creation time is
the resolved value while the unresolvable incremental one stays zero. -/
theorem validation_snapshot_field_frame_witness :
    ((validateReceiveFlags envTimes jobWithIncremental
        ["tank/data@snap1", "file://b", "tank/restore"]).toOption.getD {}).BaseSnapshot.CreationTime
      = 42 :=
  (validation_snapshot_field_frame envTimes jobWithIncremental _
      ["tank/data@snap1", "file://b", "tank/restore"] rfl rfl rfl).1.2.trans (by decide)

end ZfsBackup
